import Mathlib

/-!
Verification of the highlight-fetcher repository (src/scraper.py, src/server.py).

The Python source is shallowly embedded: pure functions become Lean functions,
Python strings become `List Char` (or `String` where only whole-value equality
matters), fallible code returns `Except PyErr`.  The few Python string
primitives the code uses (`split`, `in`, `find`, `int(...)`, `re.search`) are
modelled explicitly below, each faithful on the inputs the scraper actually
handles (the restrictions are stated in each doc comment).
-/

set_option autoImplicit false
set_option linter.unusedVariables false
set_option linter.unnecessarySeqFocus false

namespace HighlightFetcher

/-- Python exception classes (and the spec's abstract error taxonomy) that the
claims mention.  The constructors `formatError`, `extractionError` and
`validationError` come from the spec's taxonomy (spec §7); the code itself only
ever produces the Python exceptions (`nameError`, `valueError`, `indexError`,
`attributeError`, `assertionError`). -/
inductive PyErr
  | nameError
  | valueError
  | indexError
  | attributeError
  | assertionError
  | formatError
  | extractionError
  | validationError
  deriving DecidableEq, Repr

/-- Numeric value of a decimal digit string (used by `pyInt`). -/
def digitsVal (s : List Char) : Nat :=
  s.foldl (fun n c => 10 * n + (c.toNat - 48)) 0

/-- Python `int(s)`, modelled for unsigned decimal strings: succeeds exactly on
a nonempty all-digit string, otherwise raises `ValueError`.  (Python also
accepts surrounding whitespace, a sign and underscores; none of these occur in
the clock and score fields this repository parses.) -/
def pyInt (s : List Char) : Except PyErr Int :=
  if s.isEmpty || !(s.all Char.isDigit) then Except.error PyErr.valueError
  else Except.ok (Int.ofNat (digitsVal s))

/-- Python `str.split(sep)` for a single-character separator: splits on every
occurrence, keeping empty segments, and returns `[s]` when the separator is
absent (so the result is always nonempty). -/
def pySplitChar (sep : Char) : List Char → List (List Char)
  | [] => [[]]
  | c :: rest =>
    if c = sep then [] :: pySplitChar sep rest
    else
      match pySplitChar sep rest with
      | [] => [[c]]
      | p :: ps => (c :: p) :: ps

/-- `beginsWith pat s` is true when `pat` is an initial segment of `s`
(character-for-character, literal comparison). -/
def beginsWith : List Char → List Char → Bool
  | [], _ => true
  | _ :: _, [] => false
  | p :: ps, c :: cs => (p == c) && beginsWith ps cs

/-- Python `str.find(pat)` restricted to found/not-found: index of the first
literal occurrence of `pat`, or `none`. -/
def strFind (pat : List Char) : List Char → Option Nat
  | [] => if beginsWith pat [] then some 0 else none
  | c :: rest =>
    if beginsWith pat (c :: rest) then some 0
    else (strFind pat rest).map (· + 1)

/-- Python `pat in s` (literal substring containment). -/
def isSubstring (pat s : List Char) : Bool :=
  (strFind pat s).isSome

/-! ### ClockConverter (scraper.py lines 219-221, server.py lines 68-69) -/

/-- `DataESPN.gameclock2seconds` (scraper.py line 221):
`(period - 1) * 12 * 60 + (11 - minutes) * 60 + (60 - seconds)`. -/
def gameclock2seconds (period minutes seconds : Int) : Int :=
  (period - 1) * 12 * 60 + (11 - minutes) * 60 + (60 - seconds)

/-- `game_clock_to_seconds` (server.py line 69), textually the same formula as
`gameclock2seconds`. -/
def game_clock_to_seconds (period minutes seconds : Int) : Int :=
  (period - 1) * 12 * 60 + (11 - minutes) * 60 + (60 - seconds)

/-- `DataESPN.secondsPassed` (scraper.py lines 223-231).  Branches on
`':' in clock`, then `'.' in clock`; if neither holds, the Python body reads
the never-assigned locals `minutes`/`seconds`, raising a `NameError`
(`UnboundLocalError`).  The two-way generator unpacking raises `ValueError`
when the split does not have exactly two parts, as does `int` on a non-digit
part. -/
def secondsPassed (period : Int) (clock : List Char) : Except PyErr Int :=
  if ':' ∈ clock then
    match pySplitChar ':' clock with
    | [m, s] => do
        let mv ← pyInt m
        let sv ← pyInt s
        Except.ok (gameclock2seconds period mv sv)
    | _ => Except.error PyErr.valueError
  else if '.' ∈ clock then do
    let sv ← pyInt ((pySplitChar '.' clock).headD [])
    Except.ok (gameclock2seconds period 0 sv)
  else Except.error PyErr.nameError

/-- `seconds_passed` (server.py lines 72-79).  Branches on
`len(clock.split(':')) == 2`, then `len(...) == 1` (any string without a colon
takes the second branch); with three or more colon-separated parts neither
branch assigns the locals and reading them raises a `NameError`. -/
def seconds_passed (period : Int) (clock : List Char) : Except PyErr Int :=
  if (pySplitChar ':' clock).length = 2 then
    match pySplitChar ':' clock with
    | [m, s] => do
        let mv ← pyInt m
        let sv ← pyInt s
        Except.ok (game_clock_to_seconds period mv sv)
    | _ => Except.error PyErr.valueError
  else if (pySplitChar ':' clock).length = 1 then do
    let sv ← pyInt ((pySplitChar '.' clock).headD [])
    Except.ok (game_clock_to_seconds period 0 sv)
  else Except.error PyErr.nameError

/-! ### Claim C1 -/

/-- C1: for every period ≥ 1, minutes in [0,11] and seconds in [0,59], the
clock conversion returns exactly `(period-1)*720 + (11-m)*60 + (60-s)` (both
the scraper and the server copies agree); period 1, 11:59 gives 1; period 1,
0:00 gives 720; period 2, 11:59 gives 721; the result is strictly increasing
in the period and strictly decreasing in the minutes and seconds remaining. -/
theorem claim1_clock_conversion (p m s : Int)
    (hp : 1 ≤ p) (hm0 : 0 ≤ m) (hm : m ≤ 11) (hs0 : 0 ≤ s) (hs : s ≤ 59) :
    gameclock2seconds p m s = (p - 1) * 720 + (11 - m) * 60 + (60 - s)
    ∧ game_clock_to_seconds p m s = gameclock2seconds p m s
    ∧ gameclock2seconds 1 11 59 = 1
    ∧ gameclock2seconds 1 0 0 = 720
    ∧ gameclock2seconds 2 11 59 = 721
    ∧ (∀ p2, p < p2 → gameclock2seconds p m s < gameclock2seconds p2 m s)
    ∧ (∀ m2, m2 ≤ 11 → m < m2 → gameclock2seconds p m2 s < gameclock2seconds p m s)
    ∧ (∀ s2, s2 ≤ 59 → s < s2 → gameclock2seconds p m s2 < gameclock2seconds p m s) := by
  refine ⟨by unfold gameclock2seconds; ring, by rfl, by decide, by decide, by decide, ?_, ?_, ?_⟩
  · intro p2 hlt
    unfold gameclock2seconds
    nlinarith
  · intro m2 hle hlt
    unfold gameclock2seconds
    nlinarith
  · intro s2 hle hlt
    unfold gameclock2seconds
    nlinarith

/-- C1 witness: the conversion theorem applied at period 2, clock 5:30. -/
theorem claim1_clock_conversion_witness :
    gameclock2seconds 2 5 30 = (2 - 1) * 720 + (11 - 5) * 60 + (60 - 30) :=
  (claim1_clock_conversion 2 5 30 (by decide) (by decide) (by decide) (by decide)
    (by decide)).1

/-! ### Helper lemmas about the Python string primitives -/

theorem game_clock_to_seconds_eq (p m s : Int) :
    game_clock_to_seconds p m s = gameclock2seconds p m s := rfl

theorem pySplitChar_not_mem (sep : Char) (s : List Char) (h : sep ∉ s) :
    pySplitChar sep s = [s] := by
  induction s with
  | nil => rfl
  | cons c rest ih =>
    have hc : ¬ c = sep := by
      intro hh
      subst hh
      exact h (List.mem_cons_self c rest)
    have hrest : sep ∉ rest := fun hm => h (List.mem_cons_of_mem c hm)
    simp [pySplitChar, hc, ih hrest]

theorem pySplitChar_append (sep : Char) (a b : List Char) (h : sep ∉ a) :
    pySplitChar sep (a ++ sep :: b) = a :: pySplitChar sep b := by
  induction a with
  | nil => simp [pySplitChar]
  | cons c a2 ih =>
    have hc : ¬ c = sep := by
      intro hh
      subst hh
      exact h (List.mem_cons_self c a2)
    have ha2 : sep ∉ a2 := fun hm => h (List.mem_cons_of_mem c hm)
    simp [pySplitChar, hc, ih ha2]

theorem pyInt_ok_not_mem {s : List Char} {n : Int} (h : pyInt s = Except.ok n)
    (c : Char) (hc : c.isDigit = false) : c ∉ s := by
  intro hmem
  have hall : s.all Char.isDigit = true := by
    by_contra hb
    rw [Bool.not_eq_true] at hb
    simp [pyInt, hb] at h
  have hdig := List.all_eq_true.mp hall c hmem
  rw [hc] at hdig
  exact absurd hdig (by simp)

/-! ### Claim C6 -/

/-- C6 counterexample: the clock string `"59"` matches neither the `"MM:SS"`
form nor the fractional `"S.ss"` form, yet the scraper's `secondsPassed`
fails with a `NameError` (not a `FormatError`) and the server's
`seconds_passed` does not fail at all: it silently returns elapsed seconds
`661` (period 1, minutes 0, seconds 59). -/
theorem claim6_counterexample :
    secondsPassed 1 ['5', '9'] = Except.error PyErr.nameError
    ∧ seconds_passed 1 ['5', '9'] = Except.ok 661
    ∧ PyErr.nameError ≠ PyErr.formatError := by
  refine ⟨rfl, rfl, by decide⟩

/-- C6 amended: a clock string containing neither `':'` nor `'.'` makes the
scraper's `secondsPassed` fail with a generic `NameError` (the branch locals
are never assigned), while the server's `seconds_passed` routes every
colon-free string to the fractional branch: it silently returns an elapsed
value whenever `int` accepts the string and fails with a generic `ValueError`
otherwise.  No `FormatError` is raised by either implementation. -/
theorem claim6_amended (p : Int) (clock : List Char)
    (h1 : (':' : Char) ∉ clock) (h2 : ('.' : Char) ∉ clock) :
    secondsPassed p clock = Except.error PyErr.nameError
    ∧ (∀ n : Int, pyInt clock = Except.ok n →
        seconds_passed p clock = Except.ok (gameclock2seconds p 0 n))
    ∧ (pyInt clock = Except.error PyErr.valueError →
        seconds_passed p clock = Except.error PyErr.valueError) := by
  have hs1 : pySplitChar ':' clock = [clock] := pySplitChar_not_mem ':' clock h1
  have hs2 : pySplitChar '.' clock = [clock] := pySplitChar_not_mem '.' clock h2
  refine ⟨?_, ?_, ?_⟩
  · simp [secondsPassed, h1, h2]
  · intro n hn
    simp [seconds_passed, hs1, hs2, hn, game_clock_to_seconds_eq] <;> rfl
  · intro hn
    simp [seconds_passed, hs1, hs2, hn] <;> rfl

/-- C6 witness: the amended theorem applied to the clock string `"ab"`. -/
theorem claim6_amended_witness :
    secondsPassed 1 ['a', 'b'] = Except.error PyErr.nameError :=
  (claim6_amended 1 ['a', 'b'] (by decide) (by decide)).1

/-! ### Claim C7 -/

/-- C7: a clock string in the bare fractional form (digits, then `'.'`, then
any colon-free tail) is parsed with minutes 0 and seconds equal to the
integer part before the decimal point, in the scraper and in the server; it
therefore yields exactly the same elapsed seconds as the `"MM:SS"` string
`"0:"` followed by the same digits, so the two clock-string branches agree at
the period boundary. -/
theorem claim7_fractional_boundary (p : Int) (ds xs : List Char) (n : Int)
    (hds : pyInt ds = Except.ok n) (hxs : (':' : Char) ∉ xs) :
    secondsPassed p (ds ++ '.' :: xs) = Except.ok (gameclock2seconds p 0 n)
    ∧ seconds_passed p (ds ++ '.' :: xs) = Except.ok (gameclock2seconds p 0 n)
    ∧ secondsPassed p ('0' :: ':' :: ds) = Except.ok (gameclock2seconds p 0 n)
    ∧ seconds_passed p ('0' :: ':' :: ds) = Except.ok (gameclock2seconds p 0 n) := by
  have hcds : (':' : Char) ∉ ds := pyInt_ok_not_mem hds ':' (by decide)
  have hdds : ('.' : Char) ∉ ds := pyInt_ok_not_mem hds '.' (by decide)
  have hcolon : (':' : Char) ∉ ds ++ '.' :: xs := by
    intro hmem
    rcases List.mem_append.mp hmem with hm | hm
    · exact hcds hm
    · rcases List.mem_cons.mp hm with hm2 | hm2
      · exact absurd hm2 (by decide)
      · exact hxs hm2
  have hdot : ('.' : Char) ∈ ds ++ '.' :: xs :=
    List.mem_append_right _ (List.mem_cons_self _ _)
  have hsplitdot : pySplitChar '.' (ds ++ '.' :: xs) = ds :: pySplitChar '.' xs :=
    pySplitChar_append '.' ds xs hdds
  have hsplitcolon : pySplitChar ':' (ds ++ '.' :: xs) = [ds ++ '.' :: xs] :=
    pySplitChar_not_mem ':' _ hcolon
  have hzero : pyInt ['0'] = Except.ok 0 := rfl
  have hsplit0 : pySplitChar ':' ('0' :: ':' :: ds) = [['0'], ds] := by
    have h1 := pySplitChar_append ':' ['0'] ds (by decide)
    rw [pySplitChar_not_mem ':' ds hcds] at h1
    simpa using h1
  have hmem0 : (':' : Char) ∈ ('0' :: ':' :: ds) := by simp
  refine ⟨?_, ?_, ?_, ?_⟩
  · simp [secondsPassed, hcolon, hdot, hsplitdot, hds] <;> rfl
  · simp [seconds_passed, hsplitcolon, hsplitdot, hds, game_clock_to_seconds_eq] <;> rfl
  · simp [secondsPassed, hmem0, hsplit0, hzero, hds] <;> rfl
  · simp [seconds_passed, hsplit0, hzero, hds, game_clock_to_seconds_eq] <;> rfl

/-- C7 witness: the boundary theorem applied at period 4, fractional clock
`"0.5"` against the `"MM:SS"` clock `"0:0"`. -/
theorem claim7_fractional_boundary_witness :
    secondsPassed 4 ['0', '.', '5'] = Except.ok (gameclock2seconds 4 0 0)
    ∧ secondsPassed 4 ['0', ':', '0'] = Except.ok (gameclock2seconds 4 0 0) :=
  ⟨(claim7_fractional_boundary 4 ['0'] ['5'] 0 rfl (by decide)).1,
   (claim7_fractional_boundary 4 ['0'] ['5'] 0 rfl (by decide)).2.2.1⟩

/-! ### EmbeddedBlobExtractor (scraper.py lines 264-267, server.py lines 134-137) -/

/-- Auxiliary loop for `pySplitStr`.  The fuel argument starts at the length
of the text and therefore never runs out: each step consumes one character of
the remaining text (a separator match consumes at least one). -/
def pySplitStrGo (sep : List Char) : Nat → List Char → List Char → List (List Char)
  | _, [], acc => [acc.reverse]
  | 0, s, acc => [acc.reverse ++ s]
  | fuel + 1, c :: rest, acc =>
    if beginsWith sep (c :: rest) then
      acc.reverse :: pySplitStrGo sep fuel (List.drop (sep.length - 1) rest) []
    else
      pySplitStrGo sep fuel rest (c :: acc)

/-- Python `str.split(sep)` for a nonempty multi-character separator: split on
every non-overlapping occurrence, left to right, keeping empty segments.
(Python raises on an empty separator; the separators used by the extraction
are the literals `'playGrps'` and `'}]],'`.) -/
def pySplitStr (sep text : List Char) : List (List Char) :=
  if sep.isEmpty then [text] else pySplitStrGo sep text.length text []

/-- The anchor token `'playGrps'` of the embedded-blob extraction. -/
def anchorPlayGrps : List Char := ['p', 'l', 'a', 'y', 'G', 'r', 'p', 's']

/-- The closing pattern `'}]],'` of the embedded-blob extraction. -/
def closingPat : List Char := ['}', ']', ']', ',']

/-- The re-appended closing brackets `'}]]'`. -/
def closingBrackets : List Char := ['}', ']', ']']

/-- The embedded-blob extraction step shared by `DataESPN.get_playbyplay_df`
(scraper.py lines 264-267) and `_fetch_highlights` (server.py lines 134-137):
`text = text.split('playGrps')[1].split('}]],')[0] + '}]]'` followed by the
two-character skip of `json.loads(text[2:])`.  Indexing `[1]` into the
one-element list produced when `'playGrps'` is absent raises a Python
`IndexError`; indexing `[0]` never fails.  The JSON parse itself is the
downstream consumer of the returned characters and is not part of this
step. -/
def extract_blob (text : List Char) : Except PyErr (List Char) :=
  match (pySplitStr anchorPlayGrps text).get? 1 with
  | none => Except.error PyErr.indexError
  | some t1 =>
      Except.ok ((((pySplitStr closingPat t1).headD []) ++ closingBrackets).drop 2)

theorem isSubstring_cons_false {sep : List Char} {c : Char} {rest : List Char}
    (h : isSubstring sep (c :: rest) = false) :
    beginsWith sep (c :: rest) = false ∧ isSubstring sep rest = false := by
  by_cases hb : beginsWith sep (c :: rest)
  · exfalso
    simp [isSubstring, strFind, hb] at h
  · refine ⟨by simpa using hb, ?_⟩
    cases hfind : strFind sep rest with
    | none => simp [isSubstring, hfind]
    | some k =>
      exfalso
      simp [isSubstring, strFind, hb, hfind] at h

theorem pySplitStrGo_no_occurrence (sep : List Char) (s : List Char) :
    ∀ (fuel : Nat) (acc : List Char), s.length ≤ fuel →
      isSubstring sep s = false →
      pySplitStrGo sep fuel s acc = [acc.reverse ++ s] := by
  induction s with
  | nil =>
    intro fuel acc hfuel hsub
    cases fuel <;> simp [pySplitStrGo]
  | cons c rest ih =>
    intro fuel acc hfuel hsub
    obtain ⟨hb, hrest⟩ := isSubstring_cons_false hsub
    cases fuel with
    | zero => exact absurd hfuel (by simp)
    | succ f =>
      have hlen : rest.length ≤ f := by
        simpa using hfuel
      rw [pySplitStrGo, if_neg (by simp [hb]), ih f (c :: acc) hlen hrest]
      simp

/-! ### Claim C5 -/

/-- C5 counterexample: on the raw page text `"x"`, which lacks the anchor
`'playGrps'`, the extraction fails with a generic `IndexError`, not an
`ExtractionError`; and on `"playGrpsXY"`, which has the anchor but lacks the
closing pattern `'}]],'`, the extraction does not fail at all — it returns
the remainder with `'}]]'` appended (here just `"}]]"` after the two-character
skip), deferring any failure to the downstream JSON parse. -/
theorem claim5_counterexample :
    extract_blob ['x'] = Except.error PyErr.indexError
    ∧ PyErr.indexError ≠ PyErr.extractionError
    ∧ extract_blob ['p', 'l', 'a', 'y', 'G', 'r', 'p', 's', 'X', 'Y']
        = Except.ok ['}', ']', ']'] := by
  refine ⟨rfl, by decide, rfl⟩

/-- C5 amended: when the anchor token `'playGrps'` is absent from the raw
page text, the embedded-blob extraction fails with a generic Python
`IndexError` (indexing `[1]` into a one-element split result); when the
anchor is present but the closing pattern `'}]],'` is absent, the extraction
raises no error at all and hands everything after the anchor (with `'}]]'`
appended and two characters skipped) to the JSON parser.  No `ExtractionError`
is raised in either case. -/
theorem claim5_amended :
    (∀ text : List Char, isSubstring anchorPlayGrps text = false →
        extract_blob text = Except.error PyErr.indexError)
    ∧ extract_blob ['p', 'l', 'a', 'y', 'G', 'r', 'p', 's', 'X', 'Y']
        = Except.ok ['}', ']', ']'] := by
  constructor
  · intro text h
    have hsplit : pySplitStr anchorPlayGrps text = [text] := by
      rw [pySplitStr, if_neg (by simp [anchorPlayGrps])]
      simpa using pySplitStrGo_no_occurrence anchorPlayGrps text text.length []
        (Nat.le_refl _) h

    rw [extract_blob, hsplit]
    rfl
  · rfl

/-- C5 witness: the amended theorem applied to the anchor-free text `"no"`. -/
theorem claim5_amended_witness :
    extract_blob ['n', 'o'] = Except.error PyErr.indexError :=
  claim5_amended.1 ['n', 'o'] rfl

/-! ### PlayerAttributor (scraper.py lines 243-251) -/

/-- Python `re.search(pat, s)` anchored at the start of `s`, for patterns made
of literal characters and the `'.'` metacharacter, which matches any single
character except a newline.  The player names that `add_player_names` passes
to `re.search` contain at most `'.'` as a regex metacharacter (periods in
initials such as `"A.J. Green"`), so this fragment covers them. -/
def reMatchesAt : List Char → List Char → Bool
  | [], _ => true
  | _ :: _, [] => false
  | p :: ps, c :: cs => (if p = '.' then c != '\n' else p == c) && reMatchesAt ps cs

/-- `re.search(pat, s).start()`: starting offset of the leftmost regex match,
or `none` when the pattern matches nowhere. -/
def reSearchStart (pat : List Char) : List Char → Option Nat
  | [] => if reMatchesAt pat [] then some 0 else none
  | c :: rest =>
    if reMatchesAt pat (c :: rest) then some 0
    else (reSearchStart pat rest).map (· + 1)

/-- Python `sorted(pairs, key=lambda x: x[1])`: stable sort on the numeric
key, inserting each element after every element with a key less than or equal
to its own, which preserves the original order among equal keys. -/
def insertByKey (p : List Char × Nat) :
    List (List Char × Nat) → List (List Char × Nat)
  | [] => [p]
  | q :: qs => if q.2 ≤ p.2 then q :: insertByKey p qs else p :: q :: qs

def pySortedByKey (l : List (List Char × Nat)) : List (List Char × Nat) :=
  l.foldl (fun acc p => insertByKey p acc) []

/-- The per-row body of `DataESPN.add_player_names` (scraper.py lines
247-251): keep the candidate names that occur literally in the text
(`name in x`), then sort the kept names by `re.search(name, text).start()` —
the starting offset of the name interpreted as a regular expression, not of
its literal occurrence.  `re.search` returning no match makes Python fail
with an `AttributeError` on `.start()`.  The candidate list stands for the
iteration order of the Python set `player_set`. -/
def add_player_names (player_set : List (List Char)) (text : List Char) :
    Except PyErr (List (List Char)) := do
  let names := player_set.filter (fun n => isSubstring n text)
  let pairs ← names.mapM (fun n =>
    match reSearchStart n text with
    | some i => Except.ok ((n, i) : List Char × Nat)
    | none => Except.error PyErr.attributeError)
  Except.ok ((pySortedByKey pairs).map Prod.fst)

/-! ### Claim C2 -/

/-- The text `"AxB and B and A.B"` of the C2 counterexample. -/
def claim2Text : List Char :=
  ['A', 'x', 'B', ' ', 'a', 'n', 'd', ' ', 'B', ' ', 'a', 'n', 'd', ' ', 'A', '.', 'B']

/-- C2: with candidate names `["A.B", "B"]`, both of which occur literally in
the text `"AxB and B and A.B"`, the attributor returns `["A.B", "B"]` —
because `re.search` treats the unescaped `'.'` in `"A.B"` as a wildcard and
matches `"AxB"` at offset 0 — even though the literal first occurrences are
at offsets 14 (`"A.B"`) and 2 (`"B"`), so ordering by literal first-occurrence
offset (the claim, the spec, and the code's own comment, "Sort the names by
their position in the text") requires `["B", "A.B"]`. -/
theorem claim2_regex_order_bug :
    add_player_names [['A', '.', 'B'], ['B']] claim2Text
      = Except.ok [['A', '.', 'B'], ['B']]
    ∧ strFind ['A', '.', 'B'] claim2Text = some 14
    ∧ strFind ['B'] claim2Text = some 2
    ∧ reSearchStart ['A', '.', 'B'] claim2Text = some 0 := by
  refine ⟨rfl, rfl, rfl, rfl⟩

/-! ### ScheduleDeduplicator score split (scraper.py lines 168-169) -/

/-- The `home_score` lambda of `get_schedule_df` (scraper.py line 168):
`x['scores'][0] if x['result'] == 'W' else x['scores'][-1]`.  Python indexing
into an empty list raises `IndexError`; the split of a result string always
has at least one element, so `Option` only records that impossibility. -/
def home_score (result : Char) (scores : List String) : Option String :=
  if result = 'W' then scores.head? else scores.getLast?

/-- The `away_score` lambda of `get_schedule_df` (scraper.py line 169):
`x['scores'][-1] if x['result'] == 'W' else x['scores'][0]`. -/
def away_score (result : Char) (scores : List String) : Option String :=
  if result = 'W' then scores.getLast? else scores.head?

/-! ### Claim C3 -/

/-- C3 counterexample: on the schedule result `"L98-101"` (result character
`'L'`, score pair `["98", "101"]`), the code assigns homeScore `"101"` and
awayScore `"98"` — the reverse of the score pair, as its own rule for losses
dictates — not homeScore `"98"` and awayScore `"101"` as the claim's example
states. -/
theorem claim3_counterexample :
    home_score 'L' ["98", "101"] = some "101"
    ∧ away_score 'L' ["98", "101"] = some "98"
    ∧ (some "101" : Option String) ≠ some "98" := by
  refine ⟨rfl, rfl, by decide⟩

/-- C3 amended: for every kept home-venue row with a two-number score pair,
the result character `'W'` (home win) assigns homeScore the first number and
awayScore the second, and any other result character (a loss) assigns the
reverse; e.g. `"W110-102"` gives home=110, away=102, and `"L98-101"` gives
home=101, away=98. -/
theorem claim3_amended (s1 s2 : String) :
    home_score 'W' [s1, s2] = some s1
    ∧ away_score 'W' [s1, s2] = some s2
    ∧ (∀ r : Char, r ≠ 'W' →
        home_score r [s1, s2] = some s2 ∧ away_score r [s1, s2] = some s1)
    ∧ home_score 'W' ["110", "102"] = some "110"
    ∧ away_score 'W' ["110", "102"] = some "102"
    ∧ home_score 'L' ["98", "101"] = some "101"
    ∧ away_score 'L' ["98", "101"] = some "98" := by
  refine ⟨rfl, rfl, ?_, rfl, rfl, rfl, rfl⟩
  intro r hr
  constructor
  · simp [home_score, hr]
  · simp [away_score, hr]

/-- C3 witness: the amended theorem applied to the loss row `"L98-101"`. -/
theorem claim3_amended_witness :
    home_score 'L' ["98", "101"] = some "101"
    ∧ away_score 'L' ["98", "101"] = some "98" :=
  (claim3_amended "98" "101").2.2.1 'L' (by decide)

/-! ### ScheduleDeduplicator tail of get_schedule_df (scraper.py lines 155-189) -/

/-- One raw schedule row as assembled by `get_schedule` (scraper.py lines
125-135), restricted to the fields the deduplication tail reads.  `game_url`
is `None` when the result cell carries no link; the remaining columns (date,
datetime, OT, schedule_of, openent) do not influence the claims and are
omitted. -/
structure SchedRaw where
  is_home : Bool
  result : Char
  scores : List String
  game_url : Option String
  deriving Repr, DecidableEq

/-- One schedule row after the score columns are added and the helper columns
dropped (scraper.py lines 168-175). -/
structure SchedOut where
  home_win : Char
  url : Option String
  homeScore : Option String
  awayScore : Option String
  deriving Repr, DecidableEq

def dropDupByUrlGo (seen : List (Option String)) : List SchedOut → List SchedOut
  | [] => []
  | r :: rs =>
    if r.url ∈ seen then dropDupByUrlGo seen rs
    else r :: dropDupByUrlGo (r.url :: seen) rs

/-- `drop_duplicates(subset=['url'])` (scraper.py line 178): keep the first
row for each url value (pandas treats two missing values as duplicates, as
`Option` equality does here). -/
def dropDupByUrl (rows : List SchedOut) : List SchedOut :=
  dropDupByUrlGo [] rows

/-- The deduplication portion of `get_schedule_df` (scraper.py lines
164-181): keep the home rows, derive the home/away score columns, drop
duplicate urls, and drop rows with missing values (`dropna`; the modelled
columns that can be missing are the url and the two scores). -/
def schedule_dedup (rows : List SchedRaw) : List SchedOut :=
  let home := rows.filter (fun r => r.is_home)
  let out := home.map (fun r =>
    { home_win := r.result, url := r.game_url,
      homeScore := home_score r.result r.scores,
      awayScore := away_score r.result r.scores })
  let dedup := dropDupByUrl out
  dedup.filter (fun r => r.url.isSome && r.homeScore.isSome && r.awayScore.isSome)

/-- The count check and result of `get_schedule_df` (scraper.py lines
183-189): `assert schedule_df.shape[0] == 30 * 82 / 2`; on success the
dataframe is returned unchanged (the parquet write is an external sink), on
mismatch the `AssertionError` propagates to the caller. -/
def get_schedule_df_post (rows : List SchedRaw) : Except PyErr (List SchedOut) :=
  if (schedule_dedup rows).length = 30 * 82 / 2 then Except.ok (schedule_dedup rows)
  else Except.error PyErr.assertionError

/-! ### Claim C4 -/

/-- C4: `get_schedule_df` returns a result exactly when the post-dedup row
count is 30 × 82 / 2 = 1230, in which case the returned rows are the deduped
rows themselves, neither truncated nor padded; any other count makes the
check fail with an error that propagates to the caller. -/
theorem claim4_schedule_count (rows : List SchedRaw) :
    ((schedule_dedup rows).length = 1230 →
      get_schedule_df_post rows = Except.ok (schedule_dedup rows))
    ∧ ((schedule_dedup rows).length ≠ 1230 →
      get_schedule_df_post rows = Except.error PyErr.assertionError)
    ∧ (∀ out, get_schedule_df_post rows = Except.ok out →
        out.length = 1230 ∧ out = schedule_dedup rows) := by
  have h30 : 30 * 82 / 2 = 1230 := by norm_num
  refine ⟨?_, ?_, ?_⟩
  · intro h
    simp [get_schedule_df_post, h30, h]
  · intro h
    simp [get_schedule_df_post, h30, h]
  · intro out hout
    by_cases h : (schedule_dedup rows).length = 1230
    · rw [get_schedule_df_post, h30, if_pos h] at hout
      obtain rfl : schedule_dedup rows = out := by
        exact (Except.ok.injEq _ _).mp hout
      exact ⟨h, rfl⟩
    · rw [get_schedule_df_post, h30, if_neg h] at hout
      exact absurd hout (by simp)

/-- C4 witness: the count theorem applied to the empty fetch, whose 0 rows
violate the expected 1230 and surface the propagated error. -/
theorem claim4_schedule_count_witness :
    get_schedule_df_post [] = Except.error PyErr.assertionError :=
  (claim4_schedule_count []).2.1 (by decide)

/-! ### TeamIdentityReconciler (scraper.py lines 90-104) -/

/-- One ESPN team row (scraper.py lines 50-55), restricted to the two fields
`fix_teams_df` touches. -/
structure EspnTeam where
  name : String
  tag : String
  deriving Repr, DecidableEq

/-- One basketball-reference team row (scraper.py lines 80-84). -/
structure BrefTeam where
  name : String
  bref_code : String
  deriving Repr, DecidableEq

/-- One row of the merged identity table. -/
structure MergedTeam where
  name : String
  tag : Option String
  bref_code : Option String
  deriving Repr, DecidableEq

/-- The pandas outer merge on `name` (scraper.py line 103), for inputs with
at most one row per name on each side: every left row keeps its fields and
picks up the matching right row's `bref_code` (or a missing value), and every
unmatched right row is appended with its left-side fields missing. -/
def mergeOuter (a : List EspnTeam) (b : List BrefTeam) : List MergedTeam :=
  a.map (fun r =>
    { name := r.name, tag := some r.tag,
      bref_code := (b.find? (fun t => t.name == r.name)).map (fun t => t.bref_code) })
  ++ (b.filter (fun t => !(a.any (fun r => r.name == t.name)))).map
      (fun t => { name := t.name, tag := none, bref_code := some t.bref_code })

/-- The reconciliation body of `DataESPN.fix_teams_df` (scraper.py lines
100-103): rename the `'LA Clippers'` row to `'Los Angeles Clippers'`, then
set the tag of every row still named `'LA Clippers'` to
`'los-angeles-clippers'` (the mask is evaluated after the rename), then
outer-merge with the basketball-reference table on `name`.  The
`sort_values('name').reset_index(drop=True)` reordering does not change any
row's field values and is omitted. -/
def fix_teams_merge (teams : List EspnTeam) (bref : List BrefTeam) : List MergedTeam :=
  let renamed := teams.map (fun r =>
    if r.name = "LA Clippers" then { r with name := "Los Angeles Clippers" } else r)
  let retagged := renamed.map (fun r =>
    if r.name = "LA Clippers" then { r with tag := "los-angeles-clippers" } else r)
  mergeOuter retagged bref

/-! ### Claim C8 -/

/-- C8: on an ESPN table whose Clippers row is named `'LA Clippers'` with tag
`'la-clippers'`, the merged table's row has displayName
`'Los Angeles Clippers'` but tag `'la-clippers'`, not
`'los-angeles-clippers'`: the tag assignment masks on the name
`'LA Clippers'` after that name has already been rewritten, so it never
fires. -/
theorem claim8_clippers_tag_not_fixed :
    fix_teams_merge [{ name := "LA Clippers", tag := "la-clippers" }]
        [{ name := "Los Angeles Clippers", bref_code := "LAC" }]
      = [{ name := "Los Angeles Clippers", tag := some "la-clippers",
           bref_code := some "LAC" }]
    ∧ (some "la-clippers" : Option String) ≠ some "los-angeles-clippers" := by
  refine ⟨rfl, by decide⟩

/-! ### Server pipeline after normalization (server.py lines 147-204) -/

/-- A normalized play row as built by `_fetch_highlights` (server.py lines
139-146). -/
structure Play where
  id : String
  period : Int
  text : String
  homeAway : String
  clock : String
  scoringPlay : Bool
  secondsPassed : Int
  deriving Repr, DecidableEq

/-- One DynamoDB item as assembled at server.py lines 160-169, with the
column-name constants of lines 147-154 inlined as field names. -/
structure DynamoItem where
  game_id : String
  id : String
  period : Int
  text : String
  seconds : Int
  venue : String
  clock : String
  scoring_play : Bool
  deriving Repr, DecidableEq

/-- Observable calls to the persistence and eventing sinks (the DynamoDB
`batch.put_item` of server.py line 179 and the EventBridge `put_events` of
lines 192-201). -/
inductive SinkEffect
  | putItem (item : DynamoItem)
  | putEvent (game_id : String) (num_plays : Nat)
  deriving Repr, DecidableEq

/-- Python control flow for the tail of `_fetch_highlights`: a `return`
statement short-circuits the rest of the body (modelled by `throw`), and sink
calls append to an effect log threaded through the state. -/
abbrev ServerM (α : Type) : Type :=
  ExceptT (List Play) (StateM (List SinkEffect)) α

def logEffect (e : SinkEffect) : ServerM Unit :=
  ExceptT.lift (modify (fun l => l ++ [e]))

/-- `_fetch_highlights` from its `return df` statement on (server.py lines
155-204), with the normalized dataframe `df` of lines 130-146 given.  The
source text after the unconditional `return df` — building the DynamoDB
items, the batch write, and the summary-event emission — is reproduced here
in source order after the `throw`. -/
def fetchHighlightsTail (game_id : String) (df : List Play) : ServerM Unit := do
  throw df
  let plays := df.map (fun p =>
    { game_id := game_id, id := p.id, period := p.period, text := p.text,
      seconds := p.secondsPassed, venue := p.homeAway, clock := p.clock,
      scoring_play := p.scoringPlay : DynamoItem })
  for play in plays do
    logEffect (SinkEffect.putItem play)
  logEffect (SinkEffect.putEvent game_id plays.length)

/-! ### Claim C9 -/

/-- C9: for every game id and every normalized dataframe, running
`_fetch_highlights` from its `return df` statement yields the dataframe as
the function's return value and leaves any effect log exactly as it was: the
DynamoDB writes and the summary-event emission after the unconditional
`return` are unreachable, so no record is written and no event is emitted. -/
theorem claim9_return_before_sink (game_id : String) (df : List Play)
    (log : List SinkEffect) :
    (fetchHighlightsTail game_id df).run.run log = (Except.error df, log) := rfl

/-! ### Cache branch of get_schedule_df (scraper.py lines 149-151) -/

/-- The `DataESPN` instance state: the directory configured in `__init__`
(scraper.py line 30). -/
structure DataESPN where
  data_dir : String
  deriving Repr, DecidableEq

/-- The cache-hit branch of `DataESPN.get_schedule_df` (scraper.py lines
149-151): if `'{self.data_dir}/schedule.parquet'` exists, evaluate
`pd.read_parquet(f'{data.data_dir}/schedule.parquet')` — note `data`, a
module-level name that only exists when scraper.py runs as a script, not
`self`.  `fileExists` and `readParquet` stand for the filesystem
collaborators; `globalData` is the module-level binding of the name `data`
(or `none` when undefined, in which case Python raises a `NameError`).
`Except.ok none` means the branch is not taken and the function falls through
to the fetch path of lines 153-189. -/
def get_schedule_df_cacheBranch {Df : Type} (self : DataESPN)
    (fileExists : String → Bool) (globalData : Option DataESPN)
    (readParquet : String → Df) : Except PyErr (Option Df) :=
  if fileExists (self.data_dir ++ "/schedule.parquet") then
    match globalData with
    | none => Except.error PyErr.nameError
    | some d => Except.ok (some (readParquet (d.data_dir ++ "/schedule.parquet")))
  else Except.ok none

/-! ### Claim C10 -/

/-- C10: whenever the cached schedule file exists and no module-level name
`data` is defined, the cache branch of `get_schedule_df` raises a `NameError`
and in particular never returns the cached dataframe. -/
theorem claim10_cache_name_error {Df : Type} (self : DataESPN)
    (fileExists : String → Bool) (readParquet : String → Df)
    (h : fileExists (self.data_dir ++ "/schedule.parquet") = true) :
    get_schedule_df_cacheBranch self fileExists none readParquet
        = Except.error PyErr.nameError
    ∧ ∀ df : Option Df,
        get_schedule_df_cacheBranch self fileExists none readParquet
          ≠ Except.ok df := by
  constructor
  · simp [get_schedule_df_cacheBranch, h]
  · intro df
    simp [get_schedule_df_cacheBranch, h]

/-- C10 witness: the cache-branch theorem applied to a concrete instance with
an existing cache file and no module-level `data`. -/
theorem claim10_cache_name_error_witness :
    get_schedule_df_cacheBranch { data_dir := "data" } (fun _ => true) none
        (fun _ => (0 : Nat))
      = Except.error PyErr.nameError :=
  (claim10_cache_name_error { data_dir := "data" } (fun _ => true)
    (fun _ => (0 : Nat)) rfl).1

end HighlightFetcher
